import Mathlib

/-!
Verification of the cache-aside users API (`src/app/route.ts`).

The route is embedded as pure state-passing functions. A `SystemState`
holds the relational table (a list of rows) and the single Redis key
(an optional cache entry with a ttl). An `Env` models the external
world: the JSON builtins (`JSON.stringify` / `JSON.parse`, which are
library functions, so they appear as function parameters) and fault
injection for each external call (which upsert statement fails, whether
the SELECT, the cache get, the cache set or the cache delete fails).
Each handler also returns the list of external calls it issued, so that
properties such as "the persistent store is never consulted" are
statements about the trace.
-/

/-- A user row: `interface User` in the source. -/
structure User where
  id : String
  name : String
  email : String
  age : Int
deriving DecidableEq, Repr

/-- The `users` table, as returned by `SELECT id, name, email, age FROM users`. -/
abbrev Db := List User

/-- One Redis entry: the stored string and the expiry set with `EX`. -/
structure CacheEntry where
  value : String
  ttl : Nat
deriving DecidableEq, Repr

/-- The externally visible state: the table plus the single `users` cache key. -/
structure SystemState where
  db : Db
  cache : Option CacheEntry
deriving DecidableEq, Repr

/-- External calls a handler can issue, in order. -/
inductive Event where
  | evCacheGet
  | evCacheSet (value : String) (ttl : Nat)
  | evCacheDel
  | evSelect
  | evBegin
  | evUpsert (u : User)
  | evCommit
  | evRollback
deriving DecidableEq, Repr

/-- The environment: the JSON builtins and fault injection for each
external call. `upsertFails i` says whether the i-th upsert statement of
the current batch raises. -/
structure Env where
  jsonStringify : List User → String
  jsonParse : String → Option (List User)
  upsertFails : Nat → Bool
  readFails : Bool
  cacheGetFails : Bool
  cacheSetFails : Bool
  cacheDelFails : Bool

/-- `const USERS_CACHE_TTL = 60` in the source. -/
def USERS_CACHE_TTL : Nat := 60

/-- Effect of one `INSERT ... ON CONFLICT (id) DO UPDATE SET name, email, age`
statement on the table: the row with the same primary key (there is at most
one) is fully overwritten, otherwise the row is inserted. -/
def upsert (db : Db) (u : User) : Db :=
  match db with
  | [] => [u]
  | r :: rest => if r.id = u.id then u :: rest else r :: upsert rest u

/-- Running the upsert loop of `writeUsers` inside the transaction, starting
at statement index i. Returns the table as the transaction would leave it
(`none` when a statement raised) together with the statements issued; a
failing statement is still issued. -/
def runUpserts (env : Env) (db : Db) (users : List User) (i : Nat) :
    Option Db × List Event :=
  match users with
  | [] => (some db, [])
  | u :: rest =>
    if env.upsertFails i then (none, [Event.evUpsert u])
    else
      let r := runUpserts env (upsert db u) rest (i + 1)
      (r.1, Event.evUpsert u :: r.2)

/-- Outcome of `writeUsers`: whether the transaction committed, the table
visible after the call, the statements issued, and whether the pooled
connection was released. -/
structure WriteOutcome where
  ok : Bool
  db : Db
  trace : List Event
  released : Bool
deriving Repr

/-- `writeUsers` from the source: BEGIN, the upsert loop, COMMIT on success;
on any failure ROLLBACK (the table visible outside is unchanged) and
rethrow; the connection is released in the `finally` block either way. -/
def writeUsers (env : Env) (db : Db) (users : List User) : WriteOutcome :=
  let r := runUpserts env db users 0
  match r.1 with
  | some db2 =>
    ⟨true, db2, Event.evBegin :: r.2 ++ [Event.evCommit], true⟩
  | none =>
    ⟨false, db, Event.evBegin :: r.2 ++ [Event.evRollback], true⟩

/-- `readUsers` from the source: `SELECT id, name, email, age FROM users`. -/
def readUsers (db : Db) : List User := db

/-- Response of the GET handler: the JSON array on success, or the 500
`\x7b error: "Failed to fetch users" \x7d` response. -/
inductive GetResult where
  | ok (users : List User)
  | fetchError
deriving DecidableEq, Repr

/-- What a GET call produces: its response, the state it leaves, and the
external calls it issued. -/
structure GetOutcome where
  result : GetResult
  state : SystemState
  trace : List Event
deriving DecidableEq, Repr

/-- The cache-miss continuation of GET: query the database, store the
serialized result with `redis.set(key, value, "EX", USERS_CACHE_TTL)`,
return the rows; any raised error is caught and mapped to the generic
fetch error. -/
def getMiss (env : Env) (st : SystemState) : GetOutcome :=
  if env.readFails then
    ⟨GetResult.fetchError, st, [Event.evCacheGet, Event.evSelect]⟩
  else
    let users := readUsers st.db
    let payload := env.jsonStringify users
    if env.cacheSetFails then
      ⟨GetResult.fetchError, st,
        [Event.evCacheGet, Event.evSelect, Event.evCacheSet payload USERS_CACHE_TTL]⟩
    else
      ⟨GetResult.ok users,
        { db := st.db, cache := some ⟨payload, USERS_CACHE_TTL⟩ },
        [Event.evCacheGet, Event.evSelect, Event.evCacheSet payload USERS_CACHE_TTL]⟩

/-- The GET handler of the users route. `redis.get` yields the stored string
or null; `if (cached)` takes the hit branch exactly when the value is
non-null and non-empty; `JSON.parse` failure raises and is caught by the
handler's catch, producing the generic fetch error. -/
def GET (env : Env) (st : SystemState) : GetOutcome :=
  if env.cacheGetFails then
    ⟨GetResult.fetchError, st, [Event.evCacheGet]⟩
  else
    match st.cache with
    | some e =>
      if e.value = "" then getMiss env st
      else
        match env.jsonParse e.value with
        | some users => ⟨GetResult.ok users, st, [Event.evCacheGet]⟩
        | none => ⟨GetResult.fetchError, st, [Event.evCacheGet]⟩
    | none => getMiss env st

/-- A parsed POST body: `Array.isArray(body)` distinguishes the two shapes. -/
inductive Body where
  | single (u : User)
  | array (us : List User)
deriving DecidableEq, Repr

/-- `const users = Array.isArray(body) ? body : [body]`. -/
def normalizeBody : Body → List User
  | Body.single u => [u]
  | Body.array us => us

/-- Response of the POST handler: `\x7b success: true, count \x7d` on
success, or the 500 `\x7b error: "Failed to write users" \x7d` response. -/
inductive PostResult where
  | ok (count : Nat)
  | writeError
deriving DecidableEq, Repr

/-- What a POST call produces. -/
structure PostOutcome where
  result : PostResult
  state : SystemState
  trace : List Event
  released : Bool
deriving Repr

/-- The POST handler of the users route: normalize the body, run
`writeUsers` (transactional), then `redis.del(USERS_CACHE_KEY)`; any raised
error — including a failing delete after a successful commit — is caught
and mapped to the generic write error. -/
def POST (env : Env) (st : SystemState) (body : Body) : PostOutcome :=
  let users := normalizeBody body
  let w := writeUsers env st.db users
  if w.ok then
    if env.cacheDelFails then
      ⟨PostResult.writeError, { db := w.db, cache := st.cache },
        w.trace ++ [Event.evCacheDel], w.released⟩
    else
      ⟨PostResult.ok users.length, { db := w.db, cache := none },
        w.trace ++ [Event.evCacheDel], w.released⟩
  else
    ⟨PostResult.writeError, { db := w.db, cache := st.cache }, w.trace, w.released⟩

/-- Lookup by primary key in the table. -/
def findUser (db : Db) (j : String) : Option User :=
  match db with
  | [] => none
  | r :: rest => if r.id = j then some r else findUser rest j

/-- Modelled from the spec: "last occurrence in input order determines final
stored values" — the last record of the batch carrying the given identifier. -/
def lastOccurrence (users : List User) (j : String) : Option User :=
  match users with
  | [] => none
  | u :: rest =>
    match lastOccurrence rest j with
    | some v => some v
    | none => if u.id = j then some u else none

/-- The cumulative effect of the upsert loop when no statement fails. -/
def applyUpserts (db : Db) (users : List User) : Db :=
  match users with
  | [] => db
  | u :: rest => applyUpserts (upsert db u) rest

/- Concrete data for witnesses and counterexamples. -/

/-- A fault-free environment with trivial JSON builtins. -/
def envOk : Env :=
  { jsonStringify := fun _ => "[]"
    jsonParse := fun _ => none
    upsertFails := fun _ => false
    readFails := false
    cacheGetFails := false
    cacheSetFails := false
    cacheDelFails := false }

/-- A fault-free environment whose parse accepts exactly the string "[]". -/
def envHit : Env :=
  { envOk with jsonParse := fun s => if s = "[]" then some ([] : List User) else none }

/-- An environment where the second upsert statement of a batch raises. -/
def envFail1 : Env :=
  { envOk with upsertFails := fun i => i == 1 }

/-- An environment where `redis.del` raises. -/
def envDelFail : Env :=
  { envOk with cacheDelFails := true }

def u1 : User := ⟨"1", "John", "john@x.com", 30⟩

def u1b : User := ⟨"1", "John Updated", "j2@x.com", 31⟩

def u2 : User := ⟨"2", "Jane", "jane@x.com", 25⟩

def st0 : SystemState := ⟨[], none⟩

/- ===== Helper lemmas ===== -/

/-- If some statement of the batch fails, the upsert loop raises. -/
theorem runUpserts_fail (env : Env) :
    ∀ (users : List User) (db : Db) (i j : Nat), j < users.length →
      env.upsertFails (i + j) = true → (runUpserts env db users i).1 = none := by
  intro users
  induction users with
  | nil => intro db i j hj _; simp at hj
  | cons u rest ih =>
    intro db i j hj hf
    by_cases hfi : env.upsertFails i = true
    · simp [runUpserts, hfi]
    · have hif : env.upsertFails i = false := by
        cases h : env.upsertFails i
        · rfl
        · exact absurd h hfi
      cases j with
      | zero =>
        rw [Nat.add_zero] at hf
        exact absurd hf hfi
      | succ k =>
        have hshift : env.upsertFails ((i + 1) + k) = true := by
          have he : i + (k + 1) = (i + 1) + k := by omega
          rwa [he] at hf
        have hk : k < rest.length := by
          simpa using Nat.lt_of_succ_lt_succ hj
        simp [runUpserts, hif]
        exact ih (upsert db u) (i + 1) k hk hshift

/-- When no statement of the batch fails, the upsert loop applies all
upserts in order. -/
theorem runUpserts_success (env : Env) (h : ∀ i, env.upsertFails i = false) :
    ∀ (users : List User) (db : Db) (i : Nat),
      (runUpserts env db users i).1 = some (applyUpserts db users) := by
  intro users
  induction users with
  | nil => intro db i; simp [runUpserts, applyUpserts]
  | cons u rest ih =>
    intro db i
    simp [runUpserts, h i, applyUpserts]
    exact ih (upsert db u) (i + 1)

/-- An upsert fully overwrites the row carrying the incoming identifier and
leaves every other row alone. -/
theorem findUser_upsert (u : User) (j : String) :
    ∀ db : Db, findUser (upsert db u) j = if u.id = j then some u else findUser db j := by
  intro db
  induction db with
  | nil => simp [upsert, findUser]
  | cons r rest ih =>
    by_cases h1 : r.id = u.id
    · by_cases h2 : u.id = j
      · simp [upsert, h1, findUser, h2]
      · have hr : ¬ r.id = j := by rw [h1]; exact h2
        simp [upsert, h1, findUser, h2, hr]
    · by_cases h2 : u.id = j
      · have hr : ¬ r.id = j := by rw [h2] at h1; exact h1
        simp [upsert, h1, findUser, h2, hr, ih]
      · by_cases hr : r.id = j
        · have h2s : ¬ j = u.id := fun hh => h2 hh.symm
          simp [upsert, h1, findUser, h2, hr, h2s]
        · simp [upsert, h1, findUser, h2, hr, ih]

/-- After the whole batch is applied, each identifier holds its last
occurrence in the batch, and identifiers not in the batch are untouched. -/
theorem findUser_applyUpserts :
    ∀ (users : List User) (db : Db) (j : String),
      findUser (applyUpserts db users) j =
        match lastOccurrence users j with
        | some v => some v
        | none => findUser db j := by
  intro users
  induction users with
  | nil => intro db j; simp [applyUpserts, lastOccurrence]
  | cons u rest ih =>
    intro db j
    simp only [applyUpserts, lastOccurrence]
    rw [ih (upsert db u) j]
    cases hl : lastOccurrence rest j with
    | some v => simp
    | none =>
      simp only [findUser_upsert]
      by_cases h2 : u.id = j <;> simp [h2]

/- ===== Claims ===== -/

/-- C1: whenever the cache holds a valid (deserializable) snapshot under the
users key, GET returns exactly that snapshot, leaves the state unchanged,
and never issues any statement against the persistent store. -/
theorem C1_cache_hit_short_circuit (env : Env) (st : SystemState)
    (e : CacheEntry) (us : List User)
    (hget : env.cacheGetFails = false)
    (hc : st.cache = some e) (hne : e.value ≠ "")
    (hp : env.jsonParse e.value = some us) :
    (GET env st).result = GetResult.ok us ∧
      (GET env st).state = st ∧
      Event.evSelect ∉ (GET env st).trace := by
  simp [GET, hget, hc, hne, hp]

/-- Witness for C1 at a concrete hit state. -/
theorem C1_witness :
    (GET envHit ⟨[], some ⟨"[]", 60⟩⟩).result = GetResult.ok [] ∧
      (GET envHit ⟨[], some ⟨"[]", 60⟩⟩).state = ⟨[], some ⟨"[]", 60⟩⟩ ∧
      Event.evSelect ∉ (GET envHit ⟨[], some ⟨"[]", 60⟩⟩).trace :=
  C1_cache_hit_short_circuit envHit ⟨[], some ⟨"[]", 60⟩⟩ ⟨"[]", 60⟩ []
    rfl rfl (by decide) (by decide)

/-- C2: if any upsert of the batch fails, the whole transaction is rolled
back — the table visible after the call is the one from before — and the
connection is released on every path, commit or rollback. -/
theorem C2_rollback_and_release (env : Env) (db : Db) (users : List User)
    (h : ∃ i, i < users.length ∧ env.upsertFails i = true) :
    (writeUsers env db users).ok = false ∧
      (writeUsers env db users).db = db ∧
      ∀ (e2 : Env) (d2 : Db) (us2 : List User),
        (writeUsers e2 d2 us2).released = true := by
  obtain ⟨i, hi, hf⟩ := h
  have hn : (runUpserts env db users 0).1 = none := by
    have := runUpserts_fail env users db 0 i hi
    rw [Nat.zero_add] at this
    exact this hf
  refine ⟨?_, ?_, ?_⟩
  · simp [writeUsers, hn]
  · simp [writeUsers, hn]
  · intro e2 d2 us2
    unfold writeUsers
    cases hrr : (runUpserts e2 d2 us2 0).1 <;> simp [hrr]

/-- Witness for C2: the second statement of a two-record batch fails. -/
theorem C2_witness :
    (writeUsers envFail1 [] [u1, u2]).ok = false ∧
      (writeUsers envFail1 [] [u1, u2]).db = [] ∧
      (writeUsers envFail1 [] [u1, u2]).released = true :=
  have h := C2_rollback_and_release envFail1 [] [u1, u2]
    ⟨1, by decide, by decide⟩
  ⟨h.1, h.2.1, h.2.2 envFail1 [] [u1, u2]⟩

/-- C10: a read that hits the cache (non-empty stored value, successful
probe) leaves the whole state — stored value and remaining ttl included —
unchanged, and issues no cache write: its trace is the single probe. -/
theorem C10_hit_leaves_cache_unchanged (env : Env) (st : SystemState)
    (e : CacheEntry)
    (hget : env.cacheGetFails = false)
    (hc : st.cache = some e) (hne : e.value ≠ "") :
    (GET env st).state = st ∧ (GET env st).trace = [Event.evCacheGet] := by
  cases hp : env.jsonParse e.value <;> simp [GET, hget, hc, hne, hp]

/-- Witness for C10 at a concrete hit state (here the snapshot does not
even parse; the state is still untouched). -/
theorem C10_witness :
    (GET envOk ⟨[], some ⟨"x", 60⟩⟩).state = ⟨[], some ⟨"x", 60⟩⟩ ∧
      (GET envOk ⟨[], some ⟨"x", 60⟩⟩).trace = [Event.evCacheGet] :=
  C10_hit_leaves_cache_unchanged envOk ⟨[], some ⟨"x", 60⟩⟩ ⟨"x", 60⟩
    rfl rfl (by decide)

/-- C3 counterexample: with a batch that commits and a failing
`redis.del`, the handler reports the generic write error, not success —
the claim "the write is still reported as successful" is false here. -/
theorem C3_counterexample :
    (writeUsers envDelFail [] [u1]).ok = true ∧
      (POST envDelFail st0 (Body.single u1)).result = PostResult.writeError ∧
      (POST envDelFail st0 (Body.single u1)).result ≠ PostResult.ok 1 := by
  refine ⟨by decide, by decide, by decide⟩

/-- C3 amended: when the transaction commits but the cache invalidation
fails, the handler responds with the generic write error, while the
committed rows stay in the table and the stale cache entry stays in place. -/
theorem C3_amended_del_failure_reported_as_error (env : Env)
    (st : SystemState) (body : Body)
    (hok : (writeUsers env st.db (normalizeBody body)).ok = true)
    (hdel : env.cacheDelFails = true) :
    (POST env st body).result = PostResult.writeError ∧
      (POST env st body).state.db = (writeUsers env st.db (normalizeBody body)).db ∧
      (POST env st body).state.cache = st.cache := by
  simp [POST, hok, hdel]

/-- Witness for the amended C3 at a concrete committing batch. -/
theorem C3_amended_witness :
    (POST envDelFail st0 (Body.single u1)).result = PostResult.writeError ∧
      (POST envDelFail st0 (Body.single u1)).state.db =
        (writeUsers envDelFail st0.db (normalizeBody (Body.single u1))).db ∧
      (POST envDelFail st0 (Body.single u1)).state.cache = st0.cache :=
  C3_amended_del_failure_reported_as_error envDelFail st0 (Body.single u1)
    (by decide) rfl

/-- C4 counterexample: an empty batch does not fail and persistence is
attempted — the handler answers success with count 0, and a BEGIN
statement was issued against the store. -/
theorem C4_counterexample :
    (POST envOk st0 (Body.array [])).result = PostResult.ok 0 ∧
      Event.evBegin ∈ (POST envOk st0 (Body.array [])).trace := by
  refine ⟨by decide, by decide⟩

/-- C4 amended: the write path performs no input validation — an empty
batch is accepted (a transaction is still opened and the handler responds
success with count 0), and a record with an empty identifier is sent to
the store as an upsert statement instead of being rejected beforehand. -/
theorem C4_amended_no_input_validation (env : Env) (st : SystemState)
    (u : User)
    (hdel : env.cacheDelFails = false)
    (h0 : env.upsertFails 0 = false)
    (_hid : u.id = "") :
    (POST env st (Body.array [])).result = PostResult.ok 0 ∧
      Event.evBegin ∈ (POST env st (Body.array [])).trace ∧
      Event.evUpsert u ∈ (POST env st (Body.array [u])).trace := by
  refine ⟨?_, ?_, ?_⟩
  · simp [POST, writeUsers, runUpserts, normalizeBody, hdel]
  · simp [POST, writeUsers, runUpserts, normalizeBody, hdel]
  · cases hrr : (runUpserts env (upsert st.db u) [] 1).1 <;>
      simp [POST, writeUsers, runUpserts, normalizeBody, hdel, h0, hrr]

/-- Witness for the amended C4 with an empty-identifier record. -/
theorem C4_amended_witness :
    (POST envOk st0 (Body.array [])).result = PostResult.ok 0 ∧
      Event.evBegin ∈ (POST envOk st0 (Body.array [])).trace ∧
      Event.evUpsert ⟨"", "N", "n@x.com", 1⟩ ∈
        (POST envOk st0 (Body.array [⟨"", "N", "n@x.com", 1⟩])).trace :=
  C4_amended_no_input_validation envOk st0 ⟨"", "N", "n@x.com", 1⟩
    rfl rfl rfl

/-- C5: a write that is reported successful (committed transaction and
successful invalidation) leaves the cache key absent. -/
theorem C5_invalidation (env : Env) (st : SystemState) (body : Body) (n : Nat)
    (h : (POST env st body).result = PostResult.ok n) :
    (POST env st body).state.cache = none := by
  cases hok : (writeUsers env st.db (normalizeBody body)).ok <;>
    cases hdel : env.cacheDelFails <;>
      simp [POST, hok, hdel] at h ⊢

/-- Witness for C5: a successful one-record write empties a populated cache. -/
theorem C5_witness :
    (POST envOk ⟨[], some ⟨"x", 60⟩⟩ (Body.single u1)).state.cache = none :=
  C5_invalidation envOk ⟨[], some ⟨"x", 60⟩⟩ (Body.single u1) 1 (by decide)

/-- C6: with an empty cache and table rows R, GET answers R and leaves the
cache holding the serialization of R with the 60-second expiry. -/
theorem C6_miss_then_populate (env : Env) (db : Db)
    (hget : env.cacheGetFails = false)
    (hread : env.readFails = false)
    (hset : env.cacheSetFails = false) :
    (GET env ⟨db, none⟩).result = GetResult.ok db ∧
      (GET env ⟨db, none⟩).state.cache =
        some ⟨env.jsonStringify db, USERS_CACHE_TTL⟩ ∧
      USERS_CACHE_TTL = 60 := by
  refine ⟨?_, ?_, rfl⟩ <;> simp [GET, getMiss, readUsers, hget, hread, hset]

/-- Witness for C6 at a one-row table. -/
theorem C6_witness :
    (GET envOk ⟨[u1], none⟩).result = GetResult.ok [u1] ∧
      (GET envOk ⟨[u1], none⟩).state.cache =
        some ⟨envOk.jsonStringify [u1], USERS_CACHE_TTL⟩ ∧
      USERS_CACHE_TTL = 60 :=
  C6_miss_then_populate envOk [u1] rfl rfl rfl

/-- C7: when the whole batch commits, each identifier ends up holding
exactly its last occurrence in input order — every field overwritten —
and identifiers outside the batch keep their previous row. -/
theorem C7_last_occurrence_wins (env : Env) (db : Db) (users : List User)
    (hfail : ∀ i, env.upsertFails i = false) :
    (writeUsers env db users).ok = true ∧
      ∀ j, findUser (writeUsers env db users).db j =
        match lastOccurrence users j with
        | some v => some v
        | none => findUser db j := by
  have hs := runUpserts_success env hfail users db 0
  constructor
  · simp [writeUsers, hs]
  · intro j
    have hdb : (writeUsers env db users).db = applyUpserts db users := by
      simp [writeUsers, hs]
    rw [hdb, findUser_applyUpserts]

/-- Witness for C7: a batch with a duplicated identifier; the stored row
for "1" is the second occurrence, with name, email and age overwritten. -/
theorem C7_witness :
    (writeUsers envOk [] [u1, u1b]).ok = true ∧
      findUser (writeUsers envOk [] [u1, u1b]).db "1" = some u1b :=
  have h := C7_last_occurrence_wins envOk [] [u1, u1b] (fun _ => rfl)
  ⟨h.1, (h.2 "1").trans (by decide)⟩

/-- C8: with an empty cache and an empty table, GET answers the empty
sequence as a success (not the fetch error) and caches its serialization. -/
theorem C8_empty_collection (env : Env)
    (hget : env.cacheGetFails = false)
    (hread : env.readFails = false)
    (hset : env.cacheSetFails = false) :
    (GET env st0).result = GetResult.ok [] ∧
      (GET env st0).result ≠ GetResult.fetchError ∧
      (GET env st0).state.cache =
        some ⟨env.jsonStringify [], USERS_CACHE_TTL⟩ := by
  refine ⟨?_, ?_, ?_⟩ <;> simp [GET, getMiss, readUsers, st0, hget, hread, hset]

/-- Witness for C8 in the fault-free environment. -/
theorem C8_witness :
    (GET envOk st0).result = GetResult.ok [] ∧
      (GET envOk st0).result ≠ GetResult.fetchError ∧
      (GET envOk st0).state.cache =
        some ⟨envOk.jsonStringify [], USERS_CACHE_TTL⟩ :=
  C8_empty_collection envOk rfl rfl rfl

/-- C9: a successful write reports exactly the length of the normalized
input sequence, and a single record and its one-element array are
interchangeable bodies — the handler treats them identically. -/
theorem C9_count_is_input_length (env : Env) (st : SystemState)
    (body : Body) (u : User) (n : Nat)
    (h : (POST env st body).result = PostResult.ok n) :
    n = (normalizeBody body).length ∧
      POST env st (Body.single u) = POST env st (Body.array [u]) := by
  constructor
  · cases hok : (writeUsers env st.db (normalizeBody body)).ok <;>
      cases hdel : env.cacheDelFails <;>
        simp [POST, hok, hdel] at h
    exact h.symm
  · rfl

/-- Witness for C9: a two-record batch with a duplicated identifier still
counts 2 (input count, not distinct identifiers), and the two body shapes
agree at a concrete record. -/
theorem C9_witness :
    2 = (normalizeBody (Body.array [u1, u1b])).length ∧
      POST envOk st0 (Body.single u2) = POST envOk st0 (Body.array [u2]) :=
  C9_count_is_input_length envOk st0 (Body.array [u1, u1b]) u2 2 (by decide)
